import Mathlib

/-!
Verification of the `getcouragenow/authenticator` service core.

The embedding follows the Go sources: the domain model is from the
`authenticator` package (User, Token, delivery methods, token states),
the contact validators from `internal/contactchecker`, and the test
expectation tables from `internal/signupapi/httphandler_test.go` and
`internal/deviceapi/httphandler_test.go`. HTTP handler bodies that are
not part of the provided sources are modelled from the specification and
are marked as such in their doc comments.
-/

namespace Authenticator

/-- Embedding of Go's `sql.NullString`: a string together with the SQL
NULL indicator (`.String` and `.Valid` in Go). -/
structure NullString where
  string : String
  valid : Bool
deriving DecidableEq, Repr

/-- `DeliveryMethod` from the domain package: `phone` or `email`. -/
inductive DeliveryMethod where
  | email
  | phone
deriving DecidableEq, Repr

/-- `TokenState` from the domain package: `pre_authorized` or `authorized`. -/
inductive TokenState where
  | preAuthorized
  | authorized
deriving DecidableEq, Repr

/-- `User` from the domain package. Timestamps are modelled as naturals. -/
structure User where
  ID : String
  Phone : NullString
  Email : NullString
  Password : String
  TFASecret : String
  IsPhoneOTPAllowed : Bool
  IsEmailOTPAllowed : Bool
  IsTOTPAllowed : Bool
  IsDeviceAllowed : Bool
  IsVerified : Bool
  CreatedAt : Nat
  UpdatedAt : Nat
deriving DecidableEq, Repr

/-- `User.DefaultOTPDelivery`: returns `email` when the raw email string is
non-empty, `phone` otherwise (the Go code tests `u.Email.String != ""`). -/
def User.DefaultOTPDelivery (u : User) : DeliveryMethod :=
  if u.Email.string ≠ "" then .email else .phone

/-- `User.CanSendDefaultOTP`: false when a device or TOTP factor is enabled,
otherwise true exactly when a phone or email OTP factor is enabled. -/
def User.CanSendDefaultOTP (u : User) : Bool :=
  if u.IsDeviceAllowed || u.IsTOTPAllowed then false
  else u.IsPhoneOTPAllowed || u.IsEmailOTPAllowed

/-- `User.DefaultName`: the email string when non-empty, else the phone string. -/
def User.DefaultName (u : User) : String :=
  if u.Email.string ≠ "" then u.Email.string else u.Phone.string

/-- `Token` from the domain package (the fields the flows use). -/
structure Token where
  ID : String
  ClientID : String
  ClientIDHash : String
  UserID : String
  Email : String
  Phone : String
  State : TokenState
  CodeHash : String
  Code : String
deriving DecidableEq, Repr

/-- `contactchecker.IsEmailValid`: Go calls `mail.ParseAddress(email)` and
returns `err == nil`. The external RFC 5322 parser is a parameter returning
`some address` on success and `none` on a parse error. -/
def IsEmailValid {α : Type} (parseAddress : String → Option α) (email : String) : Bool :=
  (parseAddress email).isSome

/-- `contactchecker.IsPhoneValid`: Go calls `phonenumbers.Parse(phone, "")`
(empty country ISO), returns `false` on a parse error and otherwise
`phonenumbers.IsValidNumber(meta)`. The external E.164 parser and validity
predicate are parameters. -/
def IsPhoneValid {α : Type} (parse : String → String → Option α)
    (isValidNumber : α → Bool) (phone : String) : Bool :=
  match parse phone "" with
  | none => false
  | some meta => isValidNumber meta

/-- Claim C3: `CanSendDefaultOTP(u)` returns true if and only if at least one
of the OTP factors is enabled (`IsPhoneOTPAllowed` or `IsEmailOTPAllowed`)
and neither `IsTOTPAllowed` nor `IsDeviceAllowed` is set. -/
theorem canSendDefaultOTP_iff (u : User) :
    u.CanSendDefaultOTP = true ↔
      (u.IsPhoneOTPAllowed = true ∨ u.IsEmailOTPAllowed = true) ∧
        u.IsTOTPAllowed = false ∧ u.IsDeviceAllowed = false := by
  unfold User.CanSendDefaultOTP
  rcases u with ⟨_, _, _, _, _, p, e, t, d, _, _, _⟩
  cases p <;> cases e <;> cases t <;> cases d <;> simp

/-- Claim C7: `DefaultOTPDelivery(u)` chooses email exactly when the user has
an email address (non-empty email string), and phone exactly when it does
not: email is preferred over phone. -/
theorem defaultOTPDelivery_email_preferred (u : User) :
    (u.DefaultOTPDelivery = .email ↔ u.Email.string ≠ "") ∧
      (u.DefaultOTPDelivery = .phone ↔ u.Email.string = "") := by
  unfold User.DefaultOTPDelivery
  by_cases h : u.Email.string = "" <;> simp [h]

/-- Claim C9: an identity is accepted exactly when the corresponding standard
parser accepts it: `IsEmailValid` succeeds iff the RFC 5322 parse succeeds,
and `IsPhoneValid` succeeds iff the string parses as a phone number that the
E.164 library judges valid. -/
theorem contactchecker_accepts_iff_parses {α β : Type}
    (parseAddress : String → Option α)
    (parse : String → String → Option β) (isValidNumber : β → Bool)
    (s : String) :
    (IsEmailValid parseAddress s = true ↔ ∃ a, parseAddress s = some a) ∧
      (IsPhoneValid parse isValidNumber s = true ↔
        ∃ m, parse s "" = some m ∧ isValidNumber m = true) := by
  constructor
  · simp [IsEmailValid, Option.isSome_iff_exists]
  · unfold IsPhoneValid
    cases h : parse s "" <;> simp [h]

/-- Claim C10: the email-versus-phone preference in `DefaultOTPDelivery` and
`DefaultName` depends only on whether the raw string `Email.string` is
non-empty; the SQL NULL indicator `Email.valid` is ignored, so a user whose
email string is non-empty but marked invalid is still treated as having an
email. -/
theorem defaultDelivery_ignores_valid_flag (u : User) (b : Bool) :
    (User.DefaultOTPDelivery { u with Email := { u.Email with valid := b } } =
        u.DefaultOTPDelivery ∧
      User.DefaultName { u with Email := { u.Email with valid := b } } =
        u.DefaultName) ∧
    (u.Email.string ≠ "" → u.Email.valid = false →
      u.DefaultOTPDelivery = .email ∧ u.DefaultName = u.Email.string) := by
  refine ⟨⟨rfl, rfl⟩, fun h _ => ?_⟩
  simp [User.DefaultOTPDelivery, User.DefaultName, h]

/-- Witness for C10 at a concrete user: a non-empty email string with
`valid := false` still yields email delivery and the email display name. -/
theorem defaultDelivery_ignores_valid_flag_witness :
    User.DefaultOTPDelivery
        { ID := "u1", Phone := ⟨"", false⟩, Email := ⟨"jane@example.com", false⟩,
          Password := "", TFASecret := "", IsPhoneOTPAllowed := false,
          IsEmailOTPAllowed := false, IsTOTPAllowed := false,
          IsDeviceAllowed := false, IsVerified := false,
          CreatedAt := 0, UpdatedAt := 0 } = .email ∧
      User.DefaultName
        { ID := "u1", Phone := ⟨"", false⟩, Email := ⟨"jane@example.com", false⟩,
          Password := "", TFASecret := "", IsPhoneOTPAllowed := false,
          IsEmailOTPAllowed := false, IsTOTPAllowed := false,
          IsDeviceAllowed := false, IsVerified := false,
          CreatedAt := 0, UpdatedAt := 0 } = "jane@example.com" :=
  (defaultDelivery_ignores_valid_flag
    { ID := "u1", Phone := ⟨"", false⟩, Email := ⟨"jane@example.com", false⟩,
      Password := "", TFASecret := "", IsPhoneOTPAllowed := false,
      IsEmailOTPAllowed := false, IsTOTPAllowed := false,
      IsDeviceAllowed := false, IsVerified := false,
      CreatedAt := 0, UpdatedAt := 0 } false).2 (by decide) rfl

/-- One row of the `TestDeviceAPI_Create` table in
`internal/deviceapi/httphandler_test.go`: expected status code, whether an
auth header is sent, expected error message, and the expected number of
calls to the logger passed to `SetupHTTPHandler`. -/
structure DeviceCreateCase where
  name : String
  statusCode : Nat
  authHeader : Bool
  errMessage : String
  loggerCount : Nat
deriving DecidableEq, Repr

/-- The `TestDeviceAPI_Create` expectation table, transcribed from
`internal/deviceapi/httphandler_test.go`. -/
def deviceCreateCases : List DeviceCreateCase :=
  [{ name := "Authentication error with no token", statusCode := 401,
     authHeader := false, errMessage := "user is not authenticated",
     loggerCount := 1 },
   { name := "Authentication error with bad token", statusCode := 401,
     authHeader := true, errMessage := "bad token", loggerCount := 1 },
   { name := "User query error", statusCode := 400, authHeader := true,
     errMessage := "no user found", loggerCount := 1 },
   { name := "Non domain error", statusCode := 500, authHeader := true,
     errMessage := "An internal error occurred", loggerCount := 1 },
   { name := "Successful request", statusCode := 200, authHeader := true,
     errMessage := "", loggerCount := 0 }]

/-- One row of the `TestSignUpAPI_SignUp` table in
`internal/signupapi/httphandler_test.go`: expected status code, error
message, `UserRepository.Create` call count and `MessagingService.Send`
call count. -/
structure SignUpCase where
  name : String
  statusCode : Nat
  errMessage : String
  userCreateCalls : Nat
  messagingCalls : Nat
deriving DecidableEq, Repr

/-- The `TestSignUpAPI_SignUp` expectation table, transcribed from
`internal/signupapi/httphandler_test.go`. -/
def signUpCases : List SignUpCase :=
  [{ name := "User query failure", statusCode := 500,
     errMessage := "An internal error occurred", userCreateCalls := 0,
     messagingCalls := 0 },
   { name := "User already verified", statusCode := 400,
     errMessage := "Cannot register user", userCreateCalls := 0,
     messagingCalls := 0 },
   { name := "User creation failure", statusCode := 500,
     errMessage := "An internal error occurred", userCreateCalls := 1,
     messagingCalls := 0 },
   { name := "Token creation failure", statusCode := 500,
     errMessage := "An internal error occurred", userCreateCalls := 1,
     messagingCalls := 0 },
   { name := "Token signing failure", statusCode := 500,
     errMessage := "An internal error occurred", userCreateCalls := 1,
     messagingCalls := 0 },
   { name := "Bad request body", statusCode := 400,
     errMessage := "Identity type must be email or phone",
     userCreateCalls := 0, messagingCalls := 0 },
   { name := "Successful request", statusCode := 201, errMessage := "",
     userCreateCalls := 1, messagingCalls := 1 }]

/-- Claim C6, as stated, is false on the code: the repository's own
`TestDeviceAPI_Create` table requires exactly one logger call for an
expected 4xx response. Concretely, the "User query error" case is an
expected `bad_request` (HTTP 400) response whose required logger call count
is 1, not 0. -/
theorem expected4xx_logs_counterexample :
    ∃ tc, tc ∈ deviceCreateCases ∧
      (400 ≤ tc.statusCode ∧ tc.statusCode < 500) ∧ tc.loggerCount ≠ 0 :=
  ⟨{ name := "User query error", statusCode := 400, authHeader := true,
     errMessage := "no user found", loggerCount := 1 },
   by decide, by decide, by decide⟩

/-- Claim C6 (amended): a handled request emits exactly one structured log
line for every error response — expected 4xx responses included — and no
log line on a successful response, per the `TestDeviceAPI_Create` table. -/
theorem handler_logs_every_error (tc : DeviceCreateCase)
    (h : tc ∈ deviceCreateCases) :
    tc.loggerCount = if tc.statusCode = 200 then 0 else 1 := by
  fin_cases h <;> decide

/-- Witness for the amended C6 at a concrete case: the expected 401 case
with a bad token logs exactly once. -/
theorem handler_logs_every_error_witness :
    ({ name := "Authentication error with bad token", statusCode := 401,
       authHeader := true, errMessage := "bad token", loggerCount := 1 } :
      DeviceCreateCase).loggerCount =
      if (401 : Nat) = 200 then 0 else 1 :=
  handler_logs_every_error
    { name := "Authentication error with bad token", statusCode := 401,
      authHeader := true, errMessage := "bad token", loggerCount := 1 }
    (by decide)

/-- The domain error taxonomy of §7, plus the catch-all `internal` wrapping
of a non-domain error text. -/
inductive AppError where
  | badRequest (msg : String)
  | invalidToken (msg : String)
  | unauthorizedErr (msg : String)
  | notFound (msg : String)
  | rateLimited (msg : String)
  | internal (wrapped : String)
deriving DecidableEq, Repr

/-- Modelled from the spec: the central error mapper of `internal/httpapi`
(absent from the provided sources) maps each domain error to its HTTP
status: 400, 401, 403, 404, 429, and 500 for `internal`. -/
def errorStatus : AppError → Nat
  | .badRequest _ => 400
  | .invalidToken _ => 401
  | .unauthorizedErr _ => 403
  | .notFound _ => 404
  | .rateLimited _ => 429
  | .internal _ => 500

/-- Modelled from the spec: the central error mapper returns the domain
error's own message for expected errors and sanitises any `internal` error
to the fixed string "An internal error occurred". -/
def errorMessage : AppError → String
  | .badRequest m => m
  | .invalidToken m => m
  | .unauthorizedErr m => m
  | .notFound m => m
  | .rateLimited m => m
  | .internal _ => "An internal error occurred"

/-- Claim C8: a non-domain error maps to HTTP 500 with the sanitised message
"An internal error occurred", never the wrapped internal text; and every
500 row of the repository's sign-up and device test tables carries exactly
that message. -/
theorem internal_error_sanitised (s : String) :
    errorStatus (.internal s) = 500 ∧
      errorMessage (.internal s) = "An internal error occurred" ∧
      (s ≠ "An internal error occurred" → errorMessage (.internal s) ≠ s) ∧
      (∀ tc ∈ signUpCases, tc.statusCode = 500 →
        tc.errMessage = "An internal error occurred") ∧
      (∀ tc ∈ deviceCreateCases, tc.statusCode = 500 →
        tc.errMessage = "An internal error occurred") := by
  refine ⟨rfl, rfl, fun h => ?_, by decide, by decide⟩
  simpa [errorMessage] using fun hEq => h hEq.symm

/-- Witness for C8 at the concrete wrapped error text
"database connection error" used by the sign-up test's query-failure case. -/
theorem internal_error_sanitised_witness :
    errorStatus (.internal "database connection error") = 500 ∧
      errorMessage (.internal "database connection error") =
        "An internal error occurred" ∧
      errorMessage (.internal "database connection error") ≠
        "database connection error" := by
  have h := internal_error_sanitised "database connection error"
  exact ⟨h.1, h.2.1, h.2.2.1 (by decide)⟩

/-- The persistent user table together with a fresh-ID source. ID strings
are produced by `genID`, standing in for the opaque unique IDs the database
layer generates. -/
structure UserStore where
  users : List User
  nextID : Nat
deriving DecidableEq, Repr

/-- Opaque fresh ID for the `nextID` counter: distinct counters give
distinct strings (witnessed by their lengths). -/
def genID (n : Nat) : String :=
  String.mk (List.replicate n 'u')

/-- `UserRepository.ByIdentity` restricted to the attributes the sign-up
flow uses: looks a user up by the `Email` or `Phone` column. -/
def UserStore.findByIdentity (st : UserStore) (attr value : String) : Option User :=
  st.users.find? fun u =>
    if attr = "Email" then u.Email.string == value
    else if attr = "Phone" then u.Phone.string == value
    else false

/-- `UserRepository.Create`: inserts a new user row and advances the
fresh-ID source. -/
def UserStore.createUser (st : UserStore) (u : User) : UserStore :=
  { users := u :: st.users, nextID := st.nextID + 1 }

/-- `UserRepository.ReCreate` (declared in the domain package, body outside
the provided sources): replaces the existing unverified row — matched by its
ID — with a freshly built registration record, advancing the fresh-ID
source. -/
def UserStore.reCreate (st : UserStore) (old newU : User) : UserStore :=
  { users := st.users.map fun v => if v.ID == old.ID then newU else v,
    nextID := st.nextID + 1 }

/-- The sign-up request body `{type, identity, password}`. -/
structure SignUpRequest where
  typ : String
  identity : String
  password : String
deriving DecidableEq, Repr

/-- The user-table attribute for a request's identity type, as in
`loginapi.loginRequest.UserAttribute`: "Email" for `email`, "Phone" for
`phone`, and "" (rejected) otherwise. -/
def SignUpRequest.userAttribute (r : SignUpRequest) : String :=
  if r.typ = "email" then "Email"
  else if r.typ = "phone" then "Phone"
  else ""

/-- The new unverified registration record a sign-up builds: fresh ID from
the store's counter, the declared identity as email or phone, the submitted
password, `is_verified = false` and all factor flags cleared. -/
def freshUser (req : SignUpRequest) (st : UserStore) : User :=
  { ID := genID st.nextID
    Phone := if req.typ = "phone" then ⟨req.identity, true⟩ else ⟨"", false⟩
    Email := if req.typ = "email" then ⟨req.identity, true⟩ else ⟨"", false⟩
    Password := req.password
    TFASecret := ""
    IsPhoneOTPAllowed := false
    IsEmailOTPAllowed := false
    IsTOTPAllowed := false
    IsDeviceAllowed := false
    IsVerified := false
    CreatedAt := st.nextID
    UpdatedAt := st.nextID }

/-- Outcomes of the external collaborators a sign-up consults, injected so
each failure branch of the handler can be exercised: the user lookup
(`error` = repository failure, `ok none` = no rows), the user write, the
token mint and the token signing. -/
structure SignUpEffects where
  lookup : Except Unit (Option User)
  userWrite : Except Unit Unit
  tokenCreate : Except Unit Token
  tokenSign : Except Unit String
deriving Repr

/-- A sign-up response: HTTP status, taxonomy code on error, the state of
the issued token on success, how many OTP messages were handed to the
messaging service, and the resulting user store. -/
structure SignUpResult where
  status : Nat
  errorCode : Option String
  tokenState : Option TokenState
  messagesEnqueued : Nat
  store : UserStore
deriving DecidableEq, Repr

/-- Modelled from the spec: the tail of the SignUp handler after the user
row is in place — mint a `pre_authorized` token carrying an OTP, sign it,
enqueue exactly one OTP message, and answer 201; a token-mint or signing
failure is an internal error with no message enqueued. -/
def signUpFinish (eff : SignUpEffects) (st : UserStore) : SignUpResult :=
  match eff.tokenCreate with
  | .error _ =>
    { status := 500, errorCode := some "internal", tokenState := none,
      messagesEnqueued := 0, store := st }
  | .ok _ =>
    match eff.tokenSign with
    | .error _ =>
      { status := 500, errorCode := some "internal", tokenState := none,
        messagesEnqueued := 0, store := st }
    | .ok _ =>
      { status := 201, errorCode := none,
        tokenState := some .preAuthorized, messagesEnqueued := 1,
        store := st }

/-- Modelled from the spec: the `POST /api/v1/signup` handler of
`internal/signupapi` (absent from the provided sources). Rejects a body
whose identity type is not email/phone and a syntactically invalid identity
(`identityValid` abstracts `contactchecker`); looks the user up by
identity; a repository failure is internal; a verified existing user is
`bad_request`; an unverified existing user is replaced via `ReCreate`;
otherwise a new user is created; then a `pre_authorized` OTP token is
issued and one OTP message enqueued. -/
def signUp (eff : SignUpEffects) (req : SignUpRequest) (identityValid : Bool)
    (st : UserStore) : SignUpResult :=
  if req.userAttribute = "" then
    { status := 400, errorCode := some "bad_request", tokenState := none,
      messagesEnqueued := 0, store := st }
  else if !identityValid then
    { status := 400, errorCode := some "bad_request", tokenState := none,
      messagesEnqueued := 0, store := st }
  else
    match eff.lookup with
    | .error _ =>
      { status := 500, errorCode := some "internal", tokenState := none,
        messagesEnqueued := 0, store := st }
    | .ok (some u) =>
      if u.IsVerified then
        { status := 400, errorCode := some "bad_request", tokenState := none,
          messagesEnqueued := 0, store := st }
      else
        match eff.userWrite with
        | .error _ =>
          { status := 500, errorCode := some "internal", tokenState := none,
            messagesEnqueued := 0, store := st }
        | .ok _ => signUpFinish eff (st.reCreate u (freshUser req st))
    | .ok none =>
      match eff.userWrite with
      | .error _ =>
        { status := 500, errorCode := some "internal", tokenState := none,
          messagesEnqueued := 0, store := st }
      | .ok _ => signUpFinish eff (st.createUser (freshUser req st))

/-- The pre-authorized token the test token service hands back on success. -/
def mockToken : Token :=
  { ID := "", ClientID := "", ClientIDHash := "", UserID := "", Email := "",
    Phone := "", State := .preAuthorized,
    CodeHash := "mock-hash", Code := "123456" }

/-- Collaborator outcomes when every external call succeeds and the lookup
honestly reads the current store. -/
def honestEffects (req : SignUpRequest) (st : UserStore) : SignUpEffects :=
  { lookup := .ok (st.findByIdentity req.userAttribute req.identity)
    userWrite := .ok ()
    tokenCreate := .ok mockToken
    tokenSign := .ok "jwt-token" }

/-- A sign-up run against the live store with all collaborators healthy. -/
def signUpHonest (req : SignUpRequest) (st : UserStore) : SignUpResult :=
  signUp (honestEffects req st) req true st

/-- Claim C4: a sign-up hands exactly one OTP message to the messaging
service when it succeeds with HTTP 201 (and then carries a `pre_authorized`
token), and zero messages on every error response; the repository's
`TestSignUpAPI_SignUp` table records the same counts. -/
theorem otp_message_exactly_on_success (eff : SignUpEffects)
    (req : SignUpRequest) (identityValid : Bool) (st : UserStore) :
    ((signUp eff req identityValid st).status = 201 →
      (signUp eff req identityValid st).messagesEnqueued = 1 ∧
        (signUp eff req identityValid st).tokenState =
          some .preAuthorized) ∧
    ((signUp eff req identityValid st).status ≠ 201 →
      (signUp eff req identityValid st).messagesEnqueued = 0) ∧
    (∀ tc ∈ signUpCases,
      tc.messagingCalls = if tc.statusCode = 201 then 1 else 0) := by
  refine ⟨?_, ?_, by decide⟩ <;>
  · unfold signUp signUpFinish
    rcases eff with ⟨lk, uw, tc, ts⟩
    dsimp only
    rcases lk with _ | u <;> rcases uw with _ | _ <;>
      rcases tc with _ | tok <;> rcases ts with _ | s <;>
      repeat' split <;> simp_all

/-- Witness for C4: the honest run on an empty store returns 201 with one
message enqueued, and the run whose user lookup fails returns a non-201
response with zero messages enqueued. -/
theorem otp_message_exactly_on_success_witness :
    (signUp (honestEffects ⟨"email", "jane@example.com", "swordfish"⟩ ⟨[], 0⟩)
        ⟨"email", "jane@example.com", "swordfish"⟩ true ⟨[], 0⟩).messagesEnqueued = 1 ∧
    (signUp
        { lookup := .error (), userWrite := .ok (),
          tokenCreate := .ok mockToken, tokenSign := .ok "jwt-token" }
        ⟨"email", "jane@example.com", "swordfish"⟩ true ⟨[], 0⟩).messagesEnqueued = 0 :=
  ⟨((otp_message_exactly_on_success
      (honestEffects ⟨"email", "jane@example.com", "swordfish"⟩ ⟨[], 0⟩)
      ⟨"email", "jane@example.com", "swordfish"⟩ true ⟨[], 0⟩).1 (by decide)).1,
   (otp_message_exactly_on_success
      { lookup := .error (), userWrite := .ok (),
        tokenCreate := .ok mockToken, tokenSign := .ok "jwt-token" }
      ⟨"email", "jane@example.com", "swordfish"⟩ true ⟨[], 0⟩).2.1 (by decide)⟩

/-- Claim C5: when the identity belongs to an existing verified user, the
sign-up answers `bad_request` (HTTP 400), leaves the user store untouched
(no record created or replaced) and enqueues no message. -/
theorem verified_user_signup_rejected (eff : SignUpEffects)
    (req : SignUpRequest) (identityValid : Bool) (st : UserStore) (u : User)
    (hattr : req.userAttribute ≠ "") (hvalid : identityValid = true)
    (hlookup : eff.lookup = .ok (some u)) (hverified : u.IsVerified = true) :
    (signUp eff req identityValid st).status = 400 ∧
      (signUp eff req identityValid st).errorCode = some "bad_request" ∧
      (signUp eff req identityValid st).store = st ∧
      (signUp eff req identityValid st).messagesEnqueued = 0 := by
  unfold signUp
  simp [hattr, hvalid, hlookup, hverified]

/-- Witness for C5: a sign-up for `jane@example.com` against a store whose
lookup yields a verified user is rejected with 400, no store change and no
message. -/
theorem verified_user_signup_rejected_witness :
    (signUp
        { lookup := .ok (some
            { ID := "u1", Phone := ⟨"", false⟩,
              Email := ⟨"jane@example.com", true⟩, Password := "pw",
              TFASecret := "", IsPhoneOTPAllowed := false,
              IsEmailOTPAllowed := true, IsTOTPAllowed := false,
              IsDeviceAllowed := false, IsVerified := true,
              CreatedAt := 0, UpdatedAt := 0 }),
          userWrite := .ok (), tokenCreate := .ok mockToken,
          tokenSign := .ok "jwt-token" }
        ⟨"email", "jane@example.com", "swordfish"⟩ true ⟨[], 5⟩).status = 400 ∧
    (signUp
        { lookup := .ok (some
            { ID := "u1", Phone := ⟨"", false⟩,
              Email := ⟨"jane@example.com", true⟩, Password := "pw",
              TFASecret := "", IsPhoneOTPAllowed := false,
              IsEmailOTPAllowed := true, IsTOTPAllowed := false,
              IsDeviceAllowed := false, IsVerified := true,
              CreatedAt := 0, UpdatedAt := 0 }),
          userWrite := .ok (), tokenCreate := .ok mockToken,
          tokenSign := .ok "jwt-token" }
        ⟨"email", "jane@example.com", "swordfish"⟩ true ⟨[], 5⟩).messagesEnqueued = 0 := by
  have h := verified_user_signup_rejected
    { lookup := .ok (some
        { ID := "u1", Phone := ⟨"", false⟩,
          Email := ⟨"jane@example.com", true⟩, Password := "pw",
          TFASecret := "", IsPhoneOTPAllowed := false,
          IsEmailOTPAllowed := true, IsTOTPAllowed := false,
          IsDeviceAllowed := false, IsVerified := true,
          CreatedAt := 0, UpdatedAt := 0 }),
      userWrite := .ok (), tokenCreate := .ok mockToken,
      tokenSign := .ok "jwt-token" }
    ⟨"email", "jane@example.com", "swordfish"⟩ true ⟨[], 5⟩
    { ID := "u1", Phone := ⟨"", false⟩,
      Email := ⟨"jane@example.com", true⟩, Password := "pw",
      TFASecret := "", IsPhoneOTPAllowed := false,
      IsEmailOTPAllowed := true, IsTOTPAllowed := false,
      IsDeviceAllowed := false, IsVerified := true,
      CreatedAt := 0, UpdatedAt := 0 }
    (by decide) rfl rfl rfl
  exact ⟨h.1, h.2.2.2⟩

/-- Distinct counters give distinct generated IDs. -/
theorem genID_injective {n m : Nat} (h : genID n = genID m) : n = m := by
  have hdata : List.replicate n 'u' = List.replicate m 'u' := by
    simpa [genID] using congrArg String.data h
  simpa using congrArg List.length hdata

/-- Claim C2: two honest sign-ups with the same email where the first user
was never verified both answer HTTP 201, and after the second run the
stored user's ID differs from the ID the first run created (`ReCreate`
replaced the unverified record). -/
theorem resignup_replaces_unverified (req : SignUpRequest) (st : UserStore)
    (htyp : req.typ = "email")
    (hnone : st.findByIdentity "Email" req.identity = none) :
    (signUpHonest req st).status = 201 ∧
    (signUpHonest req (signUpHonest req st).store).status = 201 ∧
    ∃ u1 u2,
      (signUpHonest req st).store.findByIdentity "Email" req.identity =
        some u1 ∧
      (signUpHonest req (signUpHonest req st).store).store.findByIdentity
        "Email" req.identity = some u2 ∧
      u1.IsVerified = false ∧ u1.ID ≠ u2.ID := by
  have hattr : req.userAttribute = "Email" := by
    simp [SignUpRequest.userAttribute, htyp]
  have h1 : signUpHonest req st =
      { status := 201, errorCode := none, tokenState := some .preAuthorized,
        messagesEnqueued := 1,
        store := st.createUser (freshUser req st) } := by
    unfold signUpHonest signUp honestEffects signUpFinish
    simp [hattr, hnone]
  have hfind1 : (st.createUser (freshUser req st)).findByIdentity "Email"
      req.identity = some (freshUser req st) := by
    unfold UserStore.findByIdentity UserStore.createUser
    simp [List.find?_cons, freshUser, htyp]
  have h2 : signUpHonest req (st.createUser (freshUser req st)) =
      { status := 201, errorCode := none, tokenState := some .preAuthorized,
        messagesEnqueued := 1,
        store := (st.createUser (freshUser req st)).reCreate (freshUser req st)
          (freshUser req (st.createUser (freshUser req st))) } := by
    unfold signUpHonest signUp honestEffects signUpFinish
    simp only [hattr, hfind1]
    simp [freshUser]
  have hfind2 : ((st.createUser (freshUser req st)).reCreate (freshUser req st)
      (freshUser req (st.createUser (freshUser req st)))).findByIdentity
      "Email" req.identity =
      some (freshUser req (st.createUser (freshUser req st))) := by
    unfold UserStore.findByIdentity UserStore.reCreate UserStore.createUser
    simp [List.find?_cons, freshUser, htyp]
  refine ⟨by rw [h1], by rw [h1]; rw [h2],
    freshUser req st, freshUser req (st.createUser (freshUser req st)),
    by rw [h1]; exact hfind1, by rw [h1, h2]; exact hfind2, rfl, ?_⟩
  intro hEq
  have : st.nextID = st.nextID + 1 := genID_injective hEq
  omega

/-- Witness for C2: two honest sign-ups of `jane@example.com` against the
empty store both answer 201 and the surviving row's ID differs from the
first. -/
theorem resignup_replaces_unverified_witness :
    (signUpHonest ⟨"email", "jane@example.com", "swordfish"⟩ ⟨[], 0⟩).status = 201 ∧
    (signUpHonest ⟨"email", "jane@example.com", "swordfish"⟩
      (signUpHonest ⟨"email", "jane@example.com", "swordfish"⟩
        ⟨[], 0⟩).store).status = 201 ∧
    ∃ u1 u2,
      (signUpHonest ⟨"email", "jane@example.com", "swordfish"⟩
        ⟨[], 0⟩).store.findByIdentity "Email" "jane@example.com" = some u1 ∧
      (signUpHonest ⟨"email", "jane@example.com", "swordfish"⟩
        (signUpHonest ⟨"email", "jane@example.com", "swordfish"⟩
          ⟨[], 0⟩).store).store.findByIdentity "Email" "jane@example.com" =
        some u2 ∧
      u1.IsVerified = false ∧ u1.ID ≠ u2.ID :=
  resignup_replaces_unverified ⟨"email", "jane@example.com", "swordfish"⟩
    ⟨[], 0⟩ rfl (by decide)

/-- A verify response: HTTP status, taxonomy code on error, the state of
the issued token on success, and the resulting user store. -/
structure VerifyResult where
  status : Nat
  errorCode : Option String
  tokenState : Option TokenState
  store : UserStore
deriving DecidableEq, Repr

/-- Modelled from the spec: the `POST /api/v1/signup/verify` handler of
`internal/signupapi` (absent from the provided sources). Requires a
`pre_authorized` token; finds the user the token names; compares the hash
of the submitted code (`hash` abstracts SHA-512 over code and embedded
expiry) to the token's embedded `CodeHash`. On a match it sets
`is_verified = true` together with the OTP-allowed flag of the user's
delivery channel and issues an `authorized` token with HTTP 200; on a
mismatch it answers `bad_request` (HTTP 400) and changes nothing. -/
def signUpVerify (hash : String → String) (tok : Token) (code : String)
    (st : UserStore) : VerifyResult :=
  if tok.State ≠ .preAuthorized then
    { status := 401, errorCode := some "invalid_token", tokenState := none,
      store := st }
  else
    match st.users.find? (fun v => v.ID == tok.UserID) with
    | none =>
      { status := 400, errorCode := some "bad_request", tokenState := none,
        store := st }
    | some u =>
      if hash code == tok.CodeHash then
        { status := 200, errorCode := none, tokenState := some .authorized,
          store :=
            { st with
              users := st.users.map fun v =>
                if v.ID == u.ID then
                  { u with
                    IsVerified := true
                    IsEmailOTPAllowed := u.IsEmailOTPAllowed ||
                      decide (u.DefaultOTPDelivery = .email)
                    IsPhoneOTPAllowed := u.IsPhoneOTPAllowed ||
                      decide (u.DefaultOTPDelivery = .phone) }
                else v } }
      else
        { status := 400, errorCode := some "bad_request", tokenState := none,
          store := st }

/-- Replacing the user a `find?`-by-ID located, with a record that keeps its
ID, makes the same search return the replacement. -/
theorem find?_map_replace (l : List User) (tid : String) (u u2 : User)
    (hfind : l.find? (fun v => v.ID == tid) = some u) (hid : u2.ID = u.ID) :
    (l.map fun v => if v.ID == u.ID then u2 else v).find?
      (fun v => v.ID == tid) = some u2 := by
  induction l with
  | nil => simp at hfind
  | cons a tl ih =>
    rcases hpa : (a.ID == tid) with _ | _
    · have htl : tl.find? (fun v => v.ID == tid) = some u := by
        simpa [List.find?_cons, hpa] using hfind
      have hptl := List.find?_some htl
      have huid : u.ID = tid := by simpa using hptl
      have hane : (a.ID == u.ID) = false := by
        simp only [huid]
        exact hpa
      simp only [List.map_cons]
      simp only [hane, List.find?_cons, Bool.false_eq_true, if_false, hpa]
      exact ih htl
    · have hau : a = u := by
        have h0 := hfind
        simp [List.find?_cons, hpa] at h0
        exact h0
      subst hau
      have hu2 : (u2.ID == tid) = true := by
        rw [hid]
        simpa using hpa
      simp [List.find?_cons, hu2]

/-- Claim C1: with a valid `pre_authorized` token naming an existing user,
the verify handler answers HTTP 200 with an `authorized` token and flips
the user's `is_verified` flag to true when the submitted code matches the
token's embedded code hash, and answers `bad_request` (HTTP 400) leaving
the store — hence the user's unverified state — untouched when it does
not. -/
theorem verify_code_outcome (hash : String → String) (tok : Token)
    (code : String) (st : UserStore) (u : User)
    (hstate : tok.State = .preAuthorized)
    (hfind : st.users.find? (fun v => v.ID == tok.UserID) = some u) :
    (hash code = tok.CodeHash →
      (signUpVerify hash tok code st).status = 200 ∧
        (signUpVerify hash tok code st).tokenState = some .authorized ∧
        ∃ u2, (signUpVerify hash tok code st).store.users.find?
            (fun v => v.ID == tok.UserID) = some u2 ∧
          u2.IsVerified = true ∧ u2.ID = u.ID) ∧
    (hash code ≠ tok.CodeHash →
      (signUpVerify hash tok code st).status = 400 ∧
        (signUpVerify hash tok code st).errorCode = some "bad_request" ∧
        (signUpVerify hash tok code st).store = st) := by
  constructor
  · intro hcode
    have hres : signUpVerify hash tok code st =
        { status := 200, errorCode := none, tokenState := some .authorized,
          store :=
            { st with
              users := st.users.map fun v =>
                if v.ID == u.ID then
                  { u with
                    IsVerified := true
                    IsEmailOTPAllowed := u.IsEmailOTPAllowed ||
                      decide (u.DefaultOTPDelivery = .email)
                    IsPhoneOTPAllowed := u.IsPhoneOTPAllowed ||
                      decide (u.DefaultOTPDelivery = .phone) } else v } } := by
      unfold signUpVerify
      simp [hstate, hfind, hcode]
    rw [hres]
    exact ⟨rfl, rfl,
      { u with
        IsVerified := true
        IsEmailOTPAllowed := u.IsEmailOTPAllowed ||
          decide (u.DefaultOTPDelivery = .email)
        IsPhoneOTPAllowed := u.IsPhoneOTPAllowed ||
          decide (u.DefaultOTPDelivery = .phone) },
      find?_map_replace st.users tok.UserID u _ hfind rfl, rfl, rfl⟩
  · intro hcode
    unfold signUpVerify
    simp [hstate, hfind, hcode]

/-- Witness for C1 at a concrete store and token: under the stand-in hash,
the right code verifies the user with HTTP 200 and the wrong code is
rejected with HTTP 400 and no store change. -/
theorem verify_code_outcome_witness :
    ((signUpVerify (fun c => c ++ "-h")
        { ID := "t1", ClientID := "", ClientIDHash := "", UserID := "u1",
          Email := "", Phone := "", State := .preAuthorized,
          CodeHash := "123456-h", Code := "" } "123456"
        ⟨[{ ID := "u1", Phone := ⟨"", false⟩,
            Email := ⟨"jane@example.com", true⟩, Password := "pw",
            TFASecret := "", IsPhoneOTPAllowed := false,
            IsEmailOTPAllowed := true, IsTOTPAllowed := false,
            IsDeviceAllowed := false, IsVerified := false,
            CreatedAt := 0, UpdatedAt := 0 }], 1⟩).status = 200 ∧
      (signUpVerify (fun c => c ++ "-h")
        { ID := "t1", ClientID := "", ClientIDHash := "", UserID := "u1",
          Email := "", Phone := "", State := .preAuthorized,
          CodeHash := "123456-h", Code := "" } "222444"
        ⟨[{ ID := "u1", Phone := ⟨"", false⟩,
            Email := ⟨"jane@example.com", true⟩, Password := "pw",
            TFASecret := "", IsPhoneOTPAllowed := false,
            IsEmailOTPAllowed := true, IsTOTPAllowed := false,
            IsDeviceAllowed := false, IsVerified := false,
            CreatedAt := 0, UpdatedAt := 0 }], 1⟩).status = 400) :=
  ⟨((verify_code_outcome (fun c => c ++ "-h")
      { ID := "t1", ClientID := "", ClientIDHash := "", UserID := "u1",
        Email := "", Phone := "", State := .preAuthorized,
        CodeHash := "123456-h", Code := "" } "123456"
      ⟨[{ ID := "u1", Phone := ⟨"", false⟩,
          Email := ⟨"jane@example.com", true⟩, Password := "pw",
          TFASecret := "", IsPhoneOTPAllowed := false,
          IsEmailOTPAllowed := true, IsTOTPAllowed := false,
          IsDeviceAllowed := false, IsVerified := false,
          CreatedAt := 0, UpdatedAt := 0 }], 1⟩
      { ID := "u1", Phone := ⟨"", false⟩,
        Email := ⟨"jane@example.com", true⟩, Password := "pw",
        TFASecret := "", IsPhoneOTPAllowed := false,
        IsEmailOTPAllowed := true, IsTOTPAllowed := false,
        IsDeviceAllowed := false, IsVerified := false,
        CreatedAt := 0, UpdatedAt := 0 } rfl (by decide)).1 (by decide)).1,
   ((verify_code_outcome (fun c => c ++ "-h")
      { ID := "t1", ClientID := "", ClientIDHash := "", UserID := "u1",
        Email := "", Phone := "", State := .preAuthorized,
        CodeHash := "123456-h", Code := "" } "222444"
      ⟨[{ ID := "u1", Phone := ⟨"", false⟩,
          Email := ⟨"jane@example.com", true⟩, Password := "pw",
          TFASecret := "", IsPhoneOTPAllowed := false,
          IsEmailOTPAllowed := true, IsTOTPAllowed := false,
          IsDeviceAllowed := false, IsVerified := false,
          CreatedAt := 0, UpdatedAt := 0 }], 1⟩
      { ID := "u1", Phone := ⟨"", false⟩,
        Email := ⟨"jane@example.com", true⟩, Password := "pw",
        TFASecret := "", IsPhoneOTPAllowed := false,
        IsEmailOTPAllowed := true, IsTOTPAllowed := false,
        IsDeviceAllowed := false, IsVerified := false,
        CreatedAt := 0, UpdatedAt := 0 } rfl (by decide)).2 (by decide)).1⟩

end Authenticator
